import Mathlib

/-!
Shallow embedding of the sticky-expansion scroll engine of this repository.

The repository contains three variants of the same effect:
* `Box…`  — `useStickyBox` in `src/composables/useStickyAnimation.ts`
  (document-offset geometry, no resize adaptation, no rate limiting);
* `Mid…`  — `useStickyExpansion` in `src/unnamed/part_000`
  (viewport-relative geometry, fixed start height `minHeight`);
* `Ref…`  — `useStickyExpansion` in `src/unnamed/part_001`
  (viewport-relative geometry, `expansionStartHeight` state, resize
  adaptation, lodash-throttled handlers).

JavaScript numbers are modelled as `ℤ`; all operations used by the source
(`+`, `-`, `Math.min`, `Math.max`, comparisons) are exact.  Element
references (`Ref<HTMLElement | null>`) are modelled as `Option` of the
geometry the handler reads from them; a handler receives the current value
of every closure variable it can read and returns the height it writes to
`element.style.height` (as `Option ℤ`, `none` when it writes nothing)
together with the closure state after the call.
-/

/-- Options of the two `useStickyExpansion` variants (`part_000`, `part_001`):
`minHeight`, `maxHeight`, `headerHeight`, `stickyPadding`, with source
defaults 640 / 1000 / 60 / 20. -/
structure StickyExpansionOptions where
  minHeight : ℤ
  maxHeight : ℤ
  headerHeight : ℤ
  stickyPadding : ℤ
  deriving DecidableEq, Repr

/-- Line 30: `stickyTriggerOffset = headerHeight + stickyPadding` (both variants). -/
def StickyExpansionOptions.stickyTriggerOffset (c : StickyExpansionOptions) : ℤ :=
  c.headerHeight + c.stickyPadding

/-- The source defaults `{ minHeight = 640, maxHeight = 1000, headerHeight = 60,
stickyPadding = 20 }`. -/
def defaultOptions : StickyExpansionOptions :=
  { minHeight := 640, maxHeight := 1000, headerHeight := 60, stickyPadding := 20 }

/-- The part of a `DOMRect` (from `getBoundingClientRect()`) the handlers read:
`top` for the sticky element, `bottom` for the container. -/
structure Rect where
  top : ℤ
  bottom : ℤ
  deriving DecidableEq, Repr

/-- Closure state of the middle variant (`part_000`):
`hasStartedExpanding`, `expansionStartScrollY`. -/
structure MidState where
  hasStartedExpanding : Bool
  expansionStartScrollY : ℤ
  deriving DecidableEq, Repr

/-- Closure state of the refined variant (`part_001`):
`hasStartedExpanding`, `expansionStartScrollY`, `expansionStartHeight`
(initialised to `minHeight`). -/
structure RefState where
  hasStartedExpanding : Bool
  expansionStartScrollY : ℤ
  expansionStartHeight : ℤ
  deriving DecidableEq, Repr

/-- Lines 64–73 of `part_001`: `potentialHeight`, the min of the scroll-driven
height (`expansionStartHeight + max(0, scrollY − expansionStartScrollY)`) and
the viewport-limited height (`innerHeight − stickyElRect.top − stickyPadding`). -/
def refPotentialHeight (c : StickyExpansionOptions) (st : RefState)
    (stickyTop scrollY innerHeight : ℤ) : ℤ :=
  let scrollDelta := scrollY - st.expansionStartScrollY
  let scrollDrivenHeight := st.expansionStartHeight + max 0 scrollDelta
  let viewportLimitedHeight := innerHeight - stickyTop - c.stickyPadding
  min scrollDrivenHeight viewportLimitedHeight

/-- Lines 75–85 of `part_001`: the pre-clamp `newHeight`.  `currentMaxHeight =
min(potentialHeight, maxHeight)`; when `containerRect.bottom <
currentMaxHeight + stickyTriggerOffset` the collapse branch yields
`currentMaxHeight − (currentMaxHeight + stickyTriggerOffset −
containerRect.bottom)`, otherwise `potentialHeight`. -/
def refRawHeight (c : StickyExpansionOptions) (st : RefState)
    (stickyTop containerBottom scrollY innerHeight : ℤ) : ℤ :=
  let potentialHeight := refPotentialHeight c st stickyTop scrollY innerHeight
  let currentMaxHeight := min potentialHeight c.maxHeight
  if containerBottom < currentMaxHeight + c.stickyTriggerOffset then
    let distancePastEnd := currentMaxHeight + c.stickyTriggerOffset - containerBottom
    currentMaxHeight - distancePastEnd
  else
    potentialHeight

/-- Lines 51–89 of `part_001`, `handleScroll` of the refined variant.  Returns
`(height written, state after the call)`; the guard on line 55 returns with
no write when the trigger has not fired or either reference is `null`.
Line 87–88: the write is `max(minHeight, min(newHeight, maxHeight))`. -/
def refHandleScroll (c : StickyExpansionOptions) (st : RefState)
    (stickyEl container : Option Rect) (scrollY innerHeight : ℤ) :
    Option ℤ × RefState :=
  match stickyEl, container with
  | some stickyElRect, some containerRect =>
    if st.hasStartedExpanding then
      let newHeight := refRawHeight c st stickyElRect.top containerRect.bottom scrollY innerHeight
      let finalHeight := max c.minHeight (min newHeight c.maxHeight)
      (some finalHeight, st)
    else
      (none, st)
  | _, _ => (none, st)

/-- Lines 43–51 of `part_000`: `potentialHeight` of the middle variant; identical
to the refined one except the scroll-driven base is the constant `minHeight`. -/
def midPotentialHeight (c : StickyExpansionOptions) (st : MidState)
    (stickyTop scrollY innerHeight : ℤ) : ℤ :=
  let scrollDelta := scrollY - st.expansionStartScrollY
  let scrollDrivenHeight := c.minHeight + max 0 scrollDelta
  let viewportLimitedHeight := innerHeight - stickyTop - c.stickyPadding
  min scrollDrivenHeight viewportLimitedHeight

/-- Lines 53–61 of `part_000`: the pre-clamp `newHeight` of the middle variant.
Its collapse branch (line 57) additionally subtracts `stickyPadding` from
`distancePastEnd`. -/
def midRawHeight (c : StickyExpansionOptions) (st : MidState)
    (stickyTop containerBottom scrollY innerHeight : ℤ) : ℤ :=
  let potentialHeight := midPotentialHeight c st stickyTop scrollY innerHeight
  let currentMaxHeight := min potentialHeight c.maxHeight
  if containerBottom < currentMaxHeight + c.stickyTriggerOffset then
    let distancePastEnd := currentMaxHeight + c.stickyTriggerOffset - containerBottom - c.stickyPadding
    currentMaxHeight - distancePastEnd
  else
    potentialHeight

/-- Lines 30–65 of `part_000`, `handleScroll` of the middle variant. -/
def midHandleScroll (c : StickyExpansionOptions) (st : MidState)
    (stickyEl container : Option Rect) (scrollY innerHeight : ℤ) :
    Option ℤ × MidState :=
  match stickyEl, container with
  | some stickyElRect, some containerRect =>
    if st.hasStartedExpanding then
      let newHeight := midRawHeight c st stickyElRect.top containerRect.bottom scrollY innerHeight
      let finalHeight := max c.minHeight (min newHeight c.maxHeight)
      (some finalHeight, st)
    else
      (none, st)
  | _, _ => (none, st)

/-- Lines 42–49 of `part_001`, `updateHeightToFitViewport`: the height
`max(minHeight, min(innerHeight − boxRect.top − stickyPadding, maxHeight))`.
The source function writes this value to `element.style.height` and returns
it; callers of this model emit the same value as their write. -/
def updateHeightToFitViewport (c : StickyExpansionOptions)
    (boxTop innerHeight : ℤ) : ℤ :=
  let idealHeight := innerHeight - boxTop - c.stickyPadding
  max c.minHeight (min idealHeight c.maxHeight)

/-- Lines 91–100 of `part_001`, `handleResize` of the refined variant.  Its guard
(line 93) reads only `hasStartedExpanding` and `stickyElementRef`; the
`container` argument models the containing closure's other reference, which
this handler never reads.  On success it writes
`updateHeightToFitViewport` and re-anchors `expansionStartHeight` and
`expansionStartScrollY`. -/
def refHandleResize (c : StickyExpansionOptions) (st : RefState)
    (stickyEl : Option Rect) (container : Option Rect) (scrollY innerHeight : ℤ) :
    Option ℤ × RefState :=
  match stickyEl with
  | some stickyElRect =>
    if st.hasStartedExpanding then
      let newHeight := updateHeightToFitViewport c stickyElRect.top innerHeight
      (some newHeight,
        { hasStartedExpanding := st.hasStartedExpanding,
          expansionStartScrollY := scrollY,
          expansionStartHeight := newHeight })
    else
      (none, st)
  | none => (none, st)

/-- One intersection notification delivered to an observer callback:
`entry.isIntersecting`, together with the ambient values the callback reads
(`window.scrollY`, and for the refined variant the observed element's
`boxRect.top` and `window.innerHeight`). -/
structure Notif where
  isIntersecting : Bool
  scrollY : ℤ
  stickyTop : ℤ
  innerHeight : ℤ
  deriving DecidableEq, Repr

/-- Lines 110–128 of `part_001`, the refined variant's `observerCallback`
processing one entry: on `isIntersecting && !hasStartedExpanding` it sets
`hasStartedExpanding`, records `expansionStartScrollY`, writes and records
the initial height via `updateHeightToFitViewport`, and unobserves;
otherwise it does nothing. -/
def refObserverStep (c : StickyExpansionOptions) (st : RefState) (n : Notif) :
    Option ℤ × RefState :=
  if n.isIntersecting && !st.hasStartedExpanding then
    let initialHeight := updateHeightToFitViewport c n.stickyTop n.innerHeight
    (some initialHeight,
      { hasStartedExpanding := true,
        expansionStartScrollY := n.scrollY,
        expansionStartHeight := initialHeight })
  else
    (none, st)

/-- Lines 72–80 of `part_000`, the middle variant's `observerCallback` processing
one entry: sets `hasStartedExpanding` and records `expansionStartScrollY`,
with no height write. -/
def midObserverStep (st : MidState) (n : Notif) : MidState :=
  if n.isIntersecting && !st.hasStartedExpanding then
    { hasStartedExpanding := true, expansionStartScrollY := n.scrollY }
  else
    st

/-- Folding the refined observer callback over a list of notifications
(the state reached after a sequence of intersection notifications). -/
def refRunNotifs (c : StickyExpansionOptions) (st : RefState) (ns : List Notif) :
    RefState :=
  ns.foldl (fun s n => (refObserverStep c s n).2) st

/-- Folding the middle variant's observer callback over a list of
notifications. -/
def midRunNotifs (st : MidState) (ns : List Notif) : MidState :=
  ns.foldl midObserverStep st

/-- Options of `useStickyBox` in `src/composables/useStickyAnimation.ts`:
`minHeight`, `maxHeight`, `headerHeight`, `topOffsetPadding`, `bottomOffset`,
with source defaults 640 / 1000 / 60 / 20 / 20. -/
structure StickyBoxOptions where
  minHeight : ℤ
  maxHeight : ℤ
  headerHeight : ℤ
  topOffsetPadding : ℤ
  bottomOffset : ℤ
  deriving DecidableEq, Repr

/-- Line 28 of `useStickyAnimation.ts`: `topOffset = headerHeight + topOffsetPadding`. -/
def StickyBoxOptions.topOffset (c : StickyBoxOptions) : ℤ :=
  c.headerHeight + c.topOffsetPadding

/-- Closure state of `useStickyBox`: `isExpansionTriggered`,
`expansionStartScrollY`. -/
structure BoxState where
  isExpansionTriggered : Bool
  expansionStartScrollY : ℤ
  deriving DecidableEq, Repr

/-- Geometry `useStickyBox.handleScroll` reads from the parent container:
`offsetTop` and `offsetHeight`. -/
structure OffsetGeom where
  offsetTop : ℤ
  offsetHeight : ℤ
  deriving DecidableEq, Repr

/-- Lines 35–75 of `useStickyAnimation.ts`, `handleScroll` of `useStickyBox`.
`stickyBoxMounted` models whether `stickyBoxRef.value` is non-null (this
variant never reads the sticky box's geometry, only writes its height). -/
def boxHandleScroll (c : StickyBoxOptions) (st : BoxState)
    (stickyBoxMounted : Bool) (parentContainer : Option OffsetGeom) (scrollY : ℤ) :
    Option ℤ × BoxState :=
  match parentContainer with
  | some pc =>
    if st.isExpansionTriggered && stickyBoxMounted then
      let stickyStartPoint := pc.offsetTop - c.topOffset
      let finalScrollDelta := stickyStartPoint - st.expansionStartScrollY
      let stickyHeightWhenLocked := c.minHeight + max 0 (finalScrollDelta - c.bottomOffset)
      let finalStickyHeight := min stickyHeightWhenLocked c.maxHeight
      let stickyEndPoint := pc.offsetTop + pc.offsetHeight - finalStickyHeight - c.topOffset
      let newHeight :=
        if scrollY < stickyStartPoint then
          let scrollDelta := scrollY - st.expansionStartScrollY
          c.minHeight + max 0 (scrollDelta - c.bottomOffset)
        else if stickyStartPoint ≤ scrollY ∧ scrollY < stickyEndPoint then
          finalStickyHeight
        else
          let distancePastEnd := scrollY - stickyEndPoint
          finalStickyHeight - distancePastEnd
      let clampedHeight := max c.minHeight (min newHeight c.maxHeight)
      (some clampedHeight, st)
    else
      (none, st)
  | none => (none, st)

/-- The source defaults of `useStickyBox`: `{ minHeight = 640, maxHeight = 1000,
headerHeight = 60, topOffsetPadding = 20, bottomOffset = 20 }`. -/
def defaultBoxOptions : StickyBoxOptions :=
  { minHeight := 640, maxHeight := 1000, headerHeight := 60,
    topOffsetPadding := 20, bottomOffset := 20 }

/-- Runtime state for the teardown analysis of the refined variant
(`part_001`): the engine's closure state, the current values of the two
element references and of the ambient geometry, the subscription state
installed by the `watchEffect` body (lines 130–136), the throttle
collaborator's pending-trailing-invocation flag for
`throttledHandleScroll` (line 102), whether the `onCleanup` callback has
run, and the log of heights written to the element after it ran. -/
structure World where
  engine : RefState
  stickyEl : Option Rect
  container : Option Rect
  scrollY : ℤ
  innerHeight : ℤ
  scrollListenerAttached : Bool
  resizeListenerAttached : Bool
  observerConnected : Bool
  trailingScrollPending : Bool
  cleanupHasRun : Bool
  writesAfterCleanup : List ℤ
  deriving DecidableEq, Repr

/-- Events of the teardown model. -/
inductive Ev where
  | scrollNotify
  | throttleTimerFires
  | cleanup
  deriving DecidableEq, Repr

/-- One event step of the teardown model.
* `scrollNotify`: a scroll notification reaches `throttledHandleScroll`
  (`part_001` line 135) only while the scroll listener is attached; the
  rate-limiting collaborator (lodash `throttle`, external to the
  repository, modelled from the spec's contract for it: a call arriving
  within the rate-limit window is deferred and delivered as a trailing
  invocation unless explicitly cancelled) records a pending trailing
  invocation.
* `throttleTimerFires`: the rate-limit window elapses; a pending trailing
  invocation runs `handleScroll` against the current state.  The pending
  flag lives inside the throttled wrapper, so removing the event listener
  does not clear it; only an explicit cancel operation on the wrapper
  would, and the source never invokes one.
* `cleanup`: the `onCleanup` callback of `part_001` lines 138–143: it
  removes both event listeners and disconnects the intersection observer,
  and touches nothing else — in particular not `trailingScrollPending`. -/
def stepEv (c : StickyExpansionOptions) (w : World) : Ev → World
  | .scrollNotify =>
    if w.scrollListenerAttached then { w with trailingScrollPending := true } else w
  | .throttleTimerFires =>
    if w.trailingScrollPending then
      let r := refHandleScroll c w.engine w.stickyEl w.container w.scrollY w.innerHeight
      { w with
        trailingScrollPending := false
        engine := r.2
        writesAfterCleanup :=
          w.writesAfterCleanup ++ (if w.cleanupHasRun then r.1.toList else []) }
    else w
  | .cleanup =>
    { w with
      scrollListenerAttached := false
      resizeListenerAttached := false
      observerConnected := false
      cleanupHasRun := true }

/-- Folding the event step over a list of events. -/
def runEvents (c : StickyExpansionOptions) (w : World) (evs : List Ev) : World :=
  evs.foldl (stepEv c) w

/-! ### Helper lemmas -/

/-- The refined `handleScroll` never mutates the closure state: its second
component is the input state in every branch. -/
theorem refHandleScroll_state (c : StickyExpansionOptions) (st : RefState)
    (stickyEl container : Option Rect) (scrollY innerHeight : ℤ) :
    (refHandleScroll c st stickyEl container scrollY innerHeight).2 = st := by
  rcases stickyEl with _ | er
  · rfl
  rcases container with _ | cr
  · rfl
  · simp only [refHandleScroll]
    split <;> rfl

/-- The middle `handleScroll` never mutates the closure state. -/
theorem midHandleScroll_state (c : StickyExpansionOptions) (st : MidState)
    (stickyEl container : Option Rect) (scrollY innerHeight : ℤ) :
    (midHandleScroll c st stickyEl container scrollY innerHeight).2 = st := by
  rcases stickyEl with _ | er
  · rfl
  rcases container with _ | cr
  · rfl
  · simp only [midHandleScroll]
    split <;> rfl

/-- Once the trigger has fired, the refined observer callback is a no-op. -/
theorem refObserverStep_of_started (c : StickyExpansionOptions) (st : RefState)
    (n : Notif) (h : st.hasStartedExpanding = true) :
    refObserverStep c st n = (none, st) := by
  simp [refObserverStep, h]

/-- Once the trigger has fired, the middle observer callback is a no-op. -/
theorem midObserverStep_of_started (st : MidState) (n : Notif)
    (h : st.hasStartedExpanding = true) :
    midObserverStep st n = st := by
  simp [midObserverStep, h]

/-- Once the trigger has fired, any further sequence of intersection
notifications leaves the refined state unchanged. -/
theorem refRunNotifs_of_started (c : StickyExpansionOptions) (st : RefState)
    (h : st.hasStartedExpanding = true) :
    ∀ ns : List Notif, refRunNotifs c st ns = st := by
  intro ns
  induction ns with
  | nil => rfl
  | cons a l ih =>
    show refRunNotifs c (refObserverStep c st a).2 l = st
    rw [refObserverStep_of_started c st a h]
    exact ih

/-- Once the trigger has fired, any further sequence of intersection
notifications leaves the middle state unchanged. -/
theorem midRunNotifs_of_started (st : MidState)
    (h : st.hasStartedExpanding = true) :
    ∀ ns : List Notif, midRunNotifs st ns = st := by
  intro ns
  induction ns with
  | nil => rfl
  | cons a l ih =>
    show midRunNotifs (midObserverStep st a) l = st
    rw [midObserverStep_of_started st a h]
    exact ih

/-! ### Claims -/

/-- C1: for every invocation of `handleScroll` of any of the three variants in
which the trigger has fired and both references are mounted (so that a height
is written), assuming `minHeight ≤ maxHeight`, the written height satisfies
`minHeight ≤ finalHeight ≤ maxHeight`, for all geometry and scroll inputs —
including the collapse branch, where the pre-clamp `newHeight` may be
arbitrarily small. -/
theorem clamp_invariant_all_variants
    (c : StickyExpansionOptions) (bc : StickyBoxOptions)
    (hc : c.minHeight ≤ c.maxHeight) (hb : bc.minHeight ≤ bc.maxHeight)
    (stR : RefState) (stM : MidState) (stB : BoxState)
    (stickyEl container : Option Rect) (mounted : Bool) (pc : Option OffsetGeom)
    (scrollY innerHeight boxScrollY : ℤ) (h : ℤ) :
    ((refHandleScroll c stR stickyEl container scrollY innerHeight).1 = some h →
      c.minHeight ≤ h ∧ h ≤ c.maxHeight)
  ∧ ((midHandleScroll c stM stickyEl container scrollY innerHeight).1 = some h →
      c.minHeight ≤ h ∧ h ≤ c.maxHeight)
  ∧ ((boxHandleScroll bc stB mounted pc boxScrollY).1 = some h →
      bc.minHeight ≤ h ∧ h ≤ bc.maxHeight) := by
  refine ⟨?_, ?_, ?_⟩
  · intro hw
    rcases stickyEl with _ | er
    · simp [refHandleScroll] at hw
    rcases container with _ | cr
    · simp [refHandleScroll] at hw
    rcases hst : stR.hasStartedExpanding <;> simp [refHandleScroll, hst] at hw
    exact hw ▸ ⟨le_max_left _ _, max_le hc (min_le_right _ _)⟩
  · intro hw
    rcases stickyEl with _ | er
    · simp [midHandleScroll] at hw
    rcases container with _ | cr
    · simp [midHandleScroll] at hw
    rcases hst : stM.hasStartedExpanding <;> simp [midHandleScroll, hst] at hw
    exact hw ▸ ⟨le_max_left _ _, max_le hc (min_le_right _ _)⟩
  · intro hw
    rcases pc with _ | pg
    · simp [boxHandleScroll] at hw
    rcases hst : stB.isExpansionTriggered <;> rcases hm : mounted <;>
      simp [boxHandleScroll, hst, hm] at hw
    exact hw ▸ ⟨le_max_left _ _, max_le hb (min_le_right _ _)⟩

/-- Witness for C1 at concrete inputs: the refined variant's write at the
default configuration with state `⟨true, 0, 640⟩`, element top 80, container
bottom 2000, `scrollY = 100`, `innerHeight = 1000` is 740, and the clamp
bounds hold for it. -/
theorem clamp_invariant_all_variants_witness :
    (640 : ℤ) ≤ 740 ∧ (740 : ℤ) ≤ 1000 :=
  (clamp_invariant_all_variants defaultOptions defaultBoxOptions
    (by decide) (by decide) ⟨true, 0, 640⟩ ⟨true, 0⟩ ⟨true, 0⟩
    (some ⟨80, 900⟩) (some ⟨0, 2000⟩) true (some ⟨500, 3000⟩)
    100 1000 100 740).1 (by decide)

/-- C2: the claim says teardown cancels pending rate-limited work so that no
height write can occur after cleanup.  The source cleanup (`part_001` lines
138–143) only removes the listeners and disconnects the observer; it never
cancels the throttled wrappers.  Concrete trace: with the trigger fired and
both references mounted, a scroll notification arrives (a trailing throttled
invocation becomes pending), cleanup runs, then the rate-limit window
elapses — and the pending `handleScroll` still runs and writes height 740
after cleanup, contradicting the claim. -/
theorem teardown_write_after_cleanup :
    runEvents defaultOptions
      ⟨⟨true, 0, 640⟩, some ⟨80, 900⟩, some ⟨0, 2000⟩, 100, 1000,
        true, true, true, false, false, []⟩
      [Ev.scrollNotify, Ev.cleanup, Ev.throttleTimerFires]
    = ⟨⟨true, 0, 640⟩, some ⟨80, 900⟩, some ⟨0, 2000⟩, 100, 1000,
        false, false, false, false, true, [740]⟩ := by
  decide

/-- C3 (amended): in the refined variant, whenever
`potentialHeight ≤ maxHeight` (so `currentMaxHeight = potentialHeight`), the
pre-clamp `newHeight` equals `min potentialHeight (containerBottom −
triggerOffset)` for every `containerBottom` — so it equals
`currentMaxHeight` at the collapse boundary from both branches and decreases
one-for-one as `containerBottom` decreases past it.  In the middle variant
the collapse branch instead yields `containerBottom − triggerOffset +
stickyPadding`, so the collapse-side value at the boundary is
`currentMaxHeight + stickyPadding`: a discontinuity of size
`stickyPadding`, not the claimed continuity. -/
theorem collapse_boundary_behavior
    (c : StickyExpansionOptions) (stR : RefState) (stM : MidState)
    (stickyTop scrollY innerHeight : ℤ)
    (hR : refPotentialHeight c stR stickyTop scrollY innerHeight ≤ c.maxHeight)
    (hM : midPotentialHeight c stM stickyTop scrollY innerHeight ≤ c.maxHeight) :
    (∀ containerBottom : ℤ,
        refRawHeight c stR stickyTop containerBottom scrollY innerHeight
        = min (refPotentialHeight c stR stickyTop scrollY innerHeight)
            (containerBottom - c.stickyTriggerOffset))
  ∧ (∀ containerBottom : ℤ,
        containerBottom <
          midPotentialHeight c stM stickyTop scrollY innerHeight
            + c.stickyTriggerOffset →
        midRawHeight c stM stickyTop containerBottom scrollY innerHeight
        = containerBottom - c.stickyTriggerOffset + c.stickyPadding)
  ∧ (∀ containerBottom : ℤ,
        midPotentialHeight c stM stickyTop scrollY innerHeight
            + c.stickyTriggerOffset ≤ containerBottom →
        midRawHeight c stM stickyTop containerBottom scrollY innerHeight
        = midPotentialHeight c stM stickyTop scrollY innerHeight) := by
  refine ⟨?_, ?_, ?_⟩
  · intro cb
    simp only [refRawHeight]
    rw [min_eq_left hR]
    split_ifs with h1 <;> omega
  · intro cb hcb
    simp only [midRawHeight]
    rw [min_eq_left hM]
    split_ifs
    omega
  · intro cb hcb
    simp only [midRawHeight]
    rw [min_eq_left hM]
    split_ifs with h1 <;> omega

/-- Counterexample to C3 as stated: in the middle variant (`part_000`) at the
default configuration with state `⟨true, 0⟩`, element top 80, `scrollY =
400`, `innerHeight = 1000` (so `currentMaxHeight = 900`, boundary
`containerBottom = 980`), the pre-clamp value is 900 at the boundary but
jumps to 919 one unit past it — it does not decrease continuously across
the boundary. -/
theorem collapse_boundary_counterexample :
    midRawHeight defaultOptions ⟨true, 0⟩ 80 980 400 1000 = 900
  ∧ midRawHeight defaultOptions ⟨true, 0⟩ 80 979 400 1000 = 919
  ∧ ¬ midRawHeight defaultOptions ⟨true, 0⟩ 80 979 400 1000
      ≤ midRawHeight defaultOptions ⟨true, 0⟩ 80 980 400 1000 := by
  decide

/-- Witness for C3 (amended) at concrete inputs: the refined pre-clamp value
at `containerBottom = 950` is 870 and the middle collapse-branch value at
`containerBottom = 900` is 840. -/
theorem collapse_boundary_behavior_witness :
    refRawHeight defaultOptions ⟨true, 0, 640⟩ 80 950 400 1000 = 870
  ∧ midRawHeight defaultOptions ⟨true, 0⟩ 80 900 400 1000 = 840 := by
  have h := collapse_boundary_behavior defaultOptions ⟨true, 0, 640⟩ ⟨true, 0⟩
    80 400 1000 (by decide) (by decide)
  exact ⟨(h.1 950).trans (by decide), (h.2.1 900 (by decide)).trans (by decide)⟩

/-- C4 (amended): at inputs yielding `currentMaxHeight = 900` with
`triggerOffset = 80` and `containerBottom = 950` under the default
configuration, the refined variant computes overrun `900 + 80 − 950 = 30`
and writes `900 − 30 = 870`; the middle variant subtracts `stickyPadding`
from the overrun (`30 − 20 = 10`) and writes `890` instead. -/
theorem collapse_scenario_c :
    (refHandleScroll defaultOptions ⟨true, 0, 640⟩ (some ⟨80, 900⟩)
        (some ⟨0, 950⟩) 400 1000).1 = some 870
  ∧ (midHandleScroll defaultOptions ⟨true, 0⟩ (some ⟨80, 900⟩)
        (some ⟨0, 950⟩) 400 1000).1 = some 890 := by
  decide

/-- Counterexample to C4 as stated: the claim asserts the write is exactly
870 for the collapse computation of both cited variants, but the middle
variant (`part_000`) writes 890 at those inputs. -/
theorem collapse_scenario_c_counterexample :
    (midHandleScroll defaultOptions ⟨true, 0⟩ (some ⟨80, 900⟩)
        (some ⟨0, 950⟩) 400 1000).1 = some 890
  ∧ (890 : ℤ) ≠ 870 := by
  decide

/-- C5: whenever the trigger has not fired, or the element reference is
`null`, or the container reference is `null`, `handleScroll` (both
viewport-relative variants) writes nothing and returns the closure state
unchanged — a silent no-op (both model functions are total, so no exception
can be raised). -/
theorem scroll_guard_noop
    (c : StickyExpansionOptions) (stR : RefState) (stM : MidState)
    (stickyEl container : Option Rect) (scrollY innerHeight : ℤ)
    (hR : stR.hasStartedExpanding = false ∨ stickyEl = none ∨ container = none)
    (hM : stM.hasStartedExpanding = false ∨ stickyEl = none ∨ container = none) :
    refHandleScroll c stR stickyEl container scrollY innerHeight = (none, stR)
  ∧ midHandleScroll c stM stickyEl container scrollY innerHeight = (none, stM) := by
  constructor
  · rcases stickyEl with _ | er
    · rfl
    rcases container with _ | cr
    · rfl
    rcases hR with h | h | h
    · simp [refHandleScroll, h]
    · exact absurd h (by simp)
    · exact absurd h (by simp)
  · rcases stickyEl with _ | er
    · rfl
    rcases container with _ | cr
    · rfl
    rcases hM with h | h | h
    · simp [midHandleScroll, h]
    · exact absurd h (by simp)
    · exact absurd h (by simp)

/-- Witness for C5 at concrete inputs: with the trigger not yet fired and
both references mounted, both variants return no write and the unchanged
state. -/
theorem scroll_guard_noop_witness :
    refHandleScroll defaultOptions ⟨false, 0, 640⟩ (some ⟨80, 900⟩)
        (some ⟨0, 2000⟩) 100 1000 = (none, ⟨false, 0, 640⟩)
  ∧ midHandleScroll defaultOptions ⟨false, 0⟩ (some ⟨80, 900⟩)
        (some ⟨0, 2000⟩) 100 1000 = (none, ⟨false, 0⟩) :=
  scroll_guard_noop defaultOptions ⟨false, 0, 640⟩ ⟨false, 0⟩
    (some ⟨80, 900⟩) (some ⟨0, 2000⟩) 100 1000 (Or.inl rfl) (Or.inl rfl)

/-- C6: starting from an untriggered state, the first intersection
notification with `isIntersecting = true` performs the full trigger
mutation (sets `hasStartedExpanding`, records `expansionStartScrollY`, and
in the refined variant records `expansionStartHeight` via
`updateHeightToFitViewport`); every further notification in the attach
cycle leaves the state unchanged, and once `hasStartedExpanding` is `true`
no operation of either variant (observer callback, `handleScroll`,
`handleResize`) ever reverts it. -/
theorem trigger_fires_exactly_once
    (c : StickyExpansionOptions) (st0 : RefState) (m0 : MidState)
    (n : Notif) (rest : List Notif)
    (h0 : st0.hasStartedExpanding = false) (hm0 : m0.hasStartedExpanding = false)
    (hn : n.isIntersecting = true) :
    ((refObserverStep c st0 n).2
        = { hasStartedExpanding := true,
            expansionStartScrollY := n.scrollY,
            expansionStartHeight :=
              updateHeightToFitViewport c n.stickyTop n.innerHeight })
  ∧ refRunNotifs c (refObserverStep c st0 n).2 rest = (refObserverStep c st0 n).2
  ∧ midObserverStep m0 n
      = { hasStartedExpanding := true, expansionStartScrollY := n.scrollY }
  ∧ midRunNotifs (midObserverStep m0 n) rest = midObserverStep m0 n
  ∧ (∀ st : RefState, st.hasStartedExpanding = true →
        (∀ m, (refObserverStep c st m).2 = st)
      ∧ (∀ stickyEl container scrollY innerHeight,
          ((refHandleScroll c st stickyEl container scrollY
              innerHeight).2).hasStartedExpanding = true)
      ∧ (∀ stickyEl container scrollY innerHeight,
          ((refHandleResize c st stickyEl container scrollY
              innerHeight).2).hasStartedExpanding = true))
  ∧ (∀ m : MidState, m.hasStartedExpanding = true →
        (∀ nn, midObserverStep m nn = m)
      ∧ (∀ stickyEl container scrollY innerHeight,
          ((midHandleScroll c m stickyEl container scrollY
              innerHeight).2).hasStartedExpanding = true)) := by
  have hstep : (refObserverStep c st0 n).2
      = { hasStartedExpanding := true,
          expansionStartScrollY := n.scrollY,
          expansionStartHeight :=
            updateHeightToFitViewport c n.stickyTop n.innerHeight } := by
    simp [refObserverStep, h0, hn]
  have hmstep : midObserverStep m0 n
      = { hasStartedExpanding := true, expansionStartScrollY := n.scrollY } := by
    simp [midObserverStep, hm0, hn]
  refine ⟨hstep, ?_, hmstep, ?_, ?_, ?_⟩
  · exact refRunNotifs_of_started c _ (by rw [hstep]) rest
  · exact midRunNotifs_of_started _ (by rw [hmstep]) rest
  · intro st hst
    refine ⟨?_, ?_, ?_⟩
    · intro m
      rw [refObserverStep_of_started c st m hst]
    · intro stickyEl container scrollY innerHeight
      rw [refHandleScroll_state]
      exact hst
    · intro stickyEl container scrollY innerHeight
      rcases stickyEl with _ | er
      · exact hst
      · simp [refHandleResize, hst]
  · intro m hm
    refine ⟨?_, ?_⟩
    · intro nn
      exact midObserverStep_of_started m nn hm
    · intro stickyEl container scrollY innerHeight
      rw [midHandleScroll_state]
      exact hm

/-- Witness for C6 at concrete inputs: the first intersecting notification
at `scrollY = 500`, element top 80, `innerHeight = 1000` produces state
`⟨true, 500, 900⟩`, and two further intersecting notifications leave it
unchanged. -/
theorem trigger_fires_exactly_once_witness :
    (refObserverStep defaultOptions ⟨false, 0, 640⟩ ⟨true, 500, 80, 1000⟩).2
      = ⟨true, 500, 900⟩
  ∧ refRunNotifs defaultOptions
      (refObserverStep defaultOptions ⟨false, 0, 640⟩ ⟨true, 500, 80, 1000⟩).2
      [⟨true, 600, 80, 1000⟩, ⟨true, 700, 90, 1000⟩]
      = (refObserverStep defaultOptions ⟨false, 0, 640⟩ ⟨true, 500, 80, 1000⟩).2 := by
  have h := trigger_fires_exactly_once defaultOptions ⟨false, 0, 640⟩ ⟨false, 0⟩
    ⟨true, 500, 80, 1000⟩ [⟨true, 600, 80, 1000⟩, ⟨true, 700, 90, 1000⟩]
    rfl rfl rfl
  exact ⟨h.1.trans (by decide), h.2.1⟩

/-- C7: the scroll-time height resolver of both viewport-relative variants is
state-pure and idempotent: it returns the closure state unchanged, and
re-invoking it on the state it returned, with identical inputs, produces the
identical write and state. -/
theorem handleScroll_idempotent_pure
    (c : StickyExpansionOptions) (stR : RefState) (stM : MidState)
    (stickyEl container : Option Rect) (scrollY innerHeight : ℤ) :
    (refHandleScroll c stR stickyEl container scrollY innerHeight).2 = stR
  ∧ refHandleScroll c (refHandleScroll c stR stickyEl container scrollY innerHeight).2
      stickyEl container scrollY innerHeight
    = refHandleScroll c stR stickyEl container scrollY innerHeight
  ∧ (midHandleScroll c stM stickyEl container scrollY innerHeight).2 = stM
  ∧ midHandleScroll c (midHandleScroll c stM stickyEl container scrollY innerHeight).2
      stickyEl container scrollY innerHeight
    = midHandleScroll c stM stickyEl container scrollY innerHeight := by
  have hR := refHandleScroll_state c stR stickyEl container scrollY innerHeight
  have hM := midHandleScroll_state c stM stickyEl container scrollY innerHeight
  exact ⟨hR, by rw [hR], hM, by rw [hM]⟩

/-- C8: in the refined variant, for every resize notification after the
trigger has fired with the element mounted, `handleResize` writes
`max(minHeight, min(innerHeight − elementTop − stickyPadding, maxHeight))`
and re-anchors `expansionStartHeight` to that written height and
`expansionStartScrollY` to the current scroll offset. -/
theorem resize_reanchor
    (c : StickyExpansionOptions) (st : RefState) (er : Rect)
    (container : Option Rect) (scrollY innerHeight : ℤ)
    (h : st.hasStartedExpanding = true) :
    refHandleResize c st (some er) container scrollY innerHeight
    = (some (max c.minHeight (min (innerHeight - er.top - c.stickyPadding) c.maxHeight)),
       { hasStartedExpanding := true,
         expansionStartScrollY := scrollY,
         expansionStartHeight :=
           max c.minHeight (min (innerHeight - er.top - c.stickyPadding) c.maxHeight) }) := by
  simp [refHandleResize, updateHeightToFitViewport, h]

/-- Witness for C8 at concrete inputs: element top 80, `innerHeight = 1000`,
`scrollY = 123` under the default configuration gives write 900 and the
re-anchored state `⟨true, 123, 900⟩`. -/
theorem resize_reanchor_witness :
    refHandleResize defaultOptions ⟨true, 5, 700⟩ (some ⟨80, 900⟩)
      (some ⟨0, 2000⟩) 123 1000 = (some 900, ⟨true, 123, 900⟩) := by
  have h := resize_reanchor defaultOptions ⟨true, 5, 700⟩ ⟨80, 900⟩
    (some ⟨0, 2000⟩) 123 1000 rfl
  exact h.trans (by decide)

/-- C9: the refined resize handler's guard reads only the trigger flag and
the element reference — its result does not depend on the container
reference at all: with the container `null` it still writes the
viewport-fit height and re-anchors the state, whereas `handleScroll` with
the container `null` is a no-op. -/
theorem resize_ignores_container
    (c : StickyExpansionOptions) (st : RefState) (er : Rect)
    (container : Option Rect) (scrollY innerHeight : ℤ)
    (h : st.hasStartedExpanding = true) :
    refHandleResize c st (some er) none scrollY innerHeight
      = refHandleResize c st (some er) container scrollY innerHeight
  ∧ (refHandleResize c st (some er) none scrollY innerHeight).1
      = some (updateHeightToFitViewport c er.top innerHeight)
  ∧ (refHandleResize c st (some er) none scrollY innerHeight).2
      = { hasStartedExpanding := true,
          expansionStartScrollY := scrollY,
          expansionStartHeight := updateHeightToFitViewport c er.top innerHeight }
  ∧ refHandleScroll c st (some er) none scrollY innerHeight = (none, st) := by
  refine ⟨rfl, ?_, ?_, rfl⟩ <;> simp [refHandleResize, h]

/-- Witness for C9 at concrete inputs: with the container reference `null`,
the resize handler still writes 900 and re-anchors to `⟨true, 42, 900⟩`;
the scroll handler at the same inputs writes nothing. -/
theorem resize_ignores_container_witness :
    refHandleResize defaultOptions ⟨true, 7, 800⟩ (some ⟨80, 900⟩) none 42 1000
      = refHandleResize defaultOptions ⟨true, 7, 800⟩ (some ⟨80, 900⟩)
          (some ⟨0, 2000⟩) 42 1000
  ∧ (refHandleResize defaultOptions ⟨true, 7, 800⟩ (some ⟨80, 900⟩) none 42 1000).1
      = some 900
  ∧ refHandleScroll defaultOptions ⟨true, 7, 800⟩ (some ⟨80, 900⟩) none 42 1000
      = (none, ⟨true, 7, 800⟩) := by
  obtain ⟨h1, h2, h3, h4⟩ := resize_ignores_container defaultOptions
    ⟨true, 7, 800⟩ ⟨80, 900⟩ (some ⟨0, 2000⟩) 42 1000 rfl
  exact ⟨h1, h2.trans (by decide), h4⟩

/-- C10: with identical scroll offset, geometry and configuration, identical
trigger state and start scroll offset, and the refined variant's
`expansionStartHeight` equal to `minHeight`: when the collapse condition is
false both variants write the same final height, and when it is true the
middle variant's pre-clamp `newHeight` exceeds the refined variant's by
exactly `stickyPadding`. -/
theorem mid_ref_equivalence
    (c : StickyExpansionOptions) (stR : RefState) (stM : MidState)
    (er cr : Rect) (scrollY innerHeight : ℤ)
    (hR : stR.hasStartedExpanding = true) (hM : stM.hasStartedExpanding = true)
    (hsy : stR.expansionStartScrollY = stM.expansionStartScrollY)
    (hesh : stR.expansionStartHeight = c.minHeight) :
    (¬ cr.bottom <
        min (refPotentialHeight c stR er.top scrollY innerHeight) c.maxHeight
          + c.stickyTriggerOffset →
      (midHandleScroll c stM (some er) (some cr) scrollY innerHeight).1
      = (refHandleScroll c stR (some er) (some cr) scrollY innerHeight).1)
  ∧ (cr.bottom <
        min (refPotentialHeight c stR er.top scrollY innerHeight) c.maxHeight
          + c.stickyTriggerOffset →
      midRawHeight c stM er.top cr.bottom scrollY innerHeight
      = refRawHeight c stR er.top cr.bottom scrollY innerHeight
          + c.stickyPadding) := by
  have hpot : midPotentialHeight c stM er.top scrollY innerHeight
      = refPotentialHeight c stR er.top scrollY innerHeight := by
    simp [midPotentialHeight, refPotentialHeight, hsy, hesh]
  constructor
  · intro hnc
    have hraw : midRawHeight c stM er.top cr.bottom scrollY innerHeight
        = refRawHeight c stR er.top cr.bottom scrollY innerHeight := by
      simp only [midRawHeight, refRawHeight, hpot]
      split_ifs
      rfl
    simp [midHandleScroll, refHandleScroll, hR, hM, hraw]
  · intro hcol
    simp only [midRawHeight, refRawHeight, hpot]
    split_ifs
    ring

/-- Witness for C10 at concrete inputs: away from the collapse boundary both
variants write 900; inside the collapse region the middle pre-clamp value
exceeds the refined one by the default `stickyPadding = 20`. -/
theorem mid_ref_equivalence_witness :
    (midHandleScroll defaultOptions ⟨true, 0⟩ (some ⟨80, 900⟩)
        (some ⟨0, 2000⟩) 400 1000).1
      = (refHandleScroll defaultOptions ⟨true, 0, 640⟩ (some ⟨80, 900⟩)
          (some ⟨0, 2000⟩) 400 1000).1
  ∧ midRawHeight defaultOptions ⟨true, 0⟩ 80 950 400 1000
      = refRawHeight defaultOptions ⟨true, 0, 640⟩ 80 950 400 1000 + 20 := by
  have h1 := (mid_ref_equivalence defaultOptions ⟨true, 0, 640⟩ ⟨true, 0⟩
    ⟨80, 900⟩ ⟨0, 2000⟩ 400 1000 rfl rfl rfl rfl).1 (by decide)
  have h2 := (mid_ref_equivalence defaultOptions ⟨true, 0, 640⟩ ⟨true, 0⟩
    ⟨80, 900⟩ ⟨0, 950⟩ 400 1000 rfl rfl rfl rfl).2 (by decide)
  exact ⟨h1, h2.trans (by decide)⟩
